import Mathlib

/-!
Shallow embedding of the Vendor Risk Reliability Score (VRRS) scoring engine
(src/federal_contract.py, src/financial_stability.py, src/past_performance.py,
src/sanctions.py, src/score_calculator.py).

Conventions of the embedding:
* Python numbers are modelled as rationals (`ℚ`); `float('inf')` upper bounds of
  threshold bands are modelled as `Option ℚ` with `none` standing for `+∞`.
* Python dict field access with `.get(key, default)` is modelled by `Option`
  fields together with `Option.getD`.
* `round(x, 2)` and `float(f"{x:.2f}")` are modelled by `round2`
  (round half to even at two decimal places, Python's rounding mode).
* Exceptions are modelled with `Except String`; an unchecked division by a zero
  denominator in the Python source is modelled as `Except.error "ZeroDivisionError"`.
-/

/-- `leOrInf v hi` models Python `value <= upper` where `upper` may be
`float('inf')` (`none`). -/
def leOrInf (v : ℚ) : Option ℚ → Prop
  | none => True
  | some u => v ≤ u

instance (v : ℚ) : (u : Option ℚ) → Decidable (leOrInf v u)
  | none => isTrue trivial
  | some x => inferInstanceAs (Decidable (v ≤ x))

/-- Band matching condition `lower <= value <= upper` shared by every
`score_with_thresholds` loop in the source. -/
def bandOk (lo : ℚ) (hi : Option ℚ) (v : ℚ) : Prop :=
  lo ≤ v ∧ leOrInf v hi

instance (lo : ℚ) (hi : Option ℚ) (v : ℚ) : Decidable (bandOk lo hi v) :=
  inferInstanceAs (Decidable (_ ∧ _))

/-- `score_with_thresholds(value, thresholds)`: identical definitions appear in
src/financial_stability.py (lines 76-90), src/sanctions.py (lines 58-72) and
src/federal_contract.py (lines 82-96); scans bands in order, returns the score
of the first band with `lower <= value <= upper`, else 0. -/
def score_with_thresholds (value : ℚ) : List (ℚ × Option ℚ × ℚ) → ℚ
  | [] => 0
  | (lo, hi, s) :: rest =>
      if bandOk lo hi value then s else score_with_thresholds value rest

/-- Round half to even (Python's `round` tie-breaking rule) to an integer. -/
def roundHalfEven (x : ℚ) : ℤ :=
  let f := ⌊x⌋
  let r := x - f
  if r < 1/2 then f
  else if 1/2 < r then f + 1
  else if f % 2 = 0 then f else f + 1

/-- `round(x, 2)` / `float(f"{x:.2f}")`: round to two decimal places. -/
def round2 (x : ℚ) : ℚ := (roundHalfEven (100 * x) : ℚ) / 100

/-! ## src/federal_contract.py -/

/-- Codes for "Other Than Full and Open Competition" (federal_contract.py line 7). -/
def OTHER_THAN_FULL_COMPETITION_CODES : List String :=
  ["ONE", "NS", "SP2", "BND", "IA", "MES", "UNQ", "URG", "OTH", "RES", "FOC",
   "UR", "PDR", "UT", "STD", "PI", "MPT"]

/-- Agency diversity thresholds (federal_contract.py lines 10-15). -/
def AGENCY_THRESHOLDS : List (ℚ × Option ℚ × ℚ) :=
  [(5, none, 1), (3, some 4, 4), (1, some 2, 7), (0, some 0, 10)]

/-- Sub-agency diversity thresholds (federal_contract.py lines 18-23). -/
def SUB_AGENCY_THRESHOLDS : List (ℚ × Option ℚ × ℚ) :=
  [(5, none, 1), (3, some 4, 4), (1, some 2, 7), (0, some 0, 10)]

/-- Award type thresholds (federal_contract.py lines 26-72), an association
list modelling the Python dict. -/
def AWARD_TYPE_THRESHOLDS : List (String × List (ℚ × Option ℚ × ℚ)) :=
  [("prime_contract",
     [(50000000, none, 1), (20000000, some 50000000, 2),
      (10000000, some 20000000, 3), (0, some 10000000, 5)]),
   ("prime_assistance",
     [(50000000, none, 2), (20000000, some 50000000, 3),
      (10000000, some 20000000, 4), (0, some 10000000, 5)]),
   ("sub_contract",
     [(50000000, none, 3), (20000000, some 50000000, 4),
      (10000000, some 20000000, 5), (0, some 10000000, 6)]),
   ("sub_assistance",
     [(50000000, none, 3), (20000000, some 50000000, 4),
      (10000000, some 20000000, 6), (0, some 10000000, 7)]),
   ("prime_award",
     [(50000000, none, 1), (20000000, some 50000000, 2),
      (10000000, some 20000000, 3), (0, some 10000000, 5)]),
   ("sub_award",
     [(50000000, none, 3), (20000000, some 50000000, 4),
      (10000000, some 20000000, 5), (0, some 10000000, 6)]),
   ("sub-grant",
     [(50000000, none, 3), (20000000, some 50000000, 4),
      (10000000, some 20000000, 6), (0, some 10000000, 7)])]

/-- `AWARD_TYPE_THRESHOLDS.get(award_type, [])`. -/
def awardTypeThresholds (award_type : String) : List (ℚ × Option ℚ × ℚ) :=
  ((AWARD_TYPE_THRESHOLDS.find? (fun p => p.1 == award_type)).map (fun p => p.2)).getD []

/-- Competition thresholds (federal_contract.py lines 75-80). -/
def COMPETITION_THRESHOLDS : List (ℚ × Option ℚ × ℚ) :=
  [(0, some 25, 1), (26, some 50, 4), (51, some 70, 7), (71, none, 10)]

/-- `score_amount_vs_year` (federal_contract.py lines 98-109). -/
def score_amount_vs_year (award_type : String) (amount : ℚ) : ℚ :=
  score_with_thresholds amount (awardTypeThresholds award_type)

/-- `score_amount_vs_competition` (federal_contract.py lines 111-121). -/
def score_amount_vs_competition (no_competition_percentage : ℚ) : ℚ :=
  score_with_thresholds no_competition_percentage COMPETITION_THRESHOLDS

/-- `score_amount_vs_agency` (federal_contract.py lines 123-133). -/
def score_amount_vs_agency (agency_count : ℚ) : ℚ :=
  score_with_thresholds agency_count AGENCY_THRESHOLDS

/-- `score_amount_vs_sub_agency` (federal_contract.py lines 135-145). -/
def score_amount_vs_sub_agency (sub_agency_count : ℚ) : ℚ :=
  score_with_thresholds sub_agency_count SUB_AGENCY_THRESHOLDS

/-- One award dict; each field is read with `.get` and a default, so all fields
are `Option`s (absent key = `none`). -/
structure Award where
  type : Option String
  amount : Option ℚ
  competition_code : Option String
deriving Repr, DecidableEq

/-- The slice of the vendor-data dict read by `calculate_final_contract_score`. -/
structure ContractVendorData where
  awards : Option (List Award)
  competition_percentage : Option ℚ
  agency_count : Option ℚ
  sub_agency_count : Option ℚ
deriving Repr, DecidableEq

/-- Result of `calculate_final_contract_score`: the returned score plus the
component values the Python function writes back into `vendor_data` for
visualization (the three `recomputed_*`/count fields are `none` exactly when
the recomputation branch did not run and hence nothing was stored). -/
structure ContractScoreResult where
  total_score : ℚ
  agency_score : ℚ
  sub_agency_score : ℚ
  normalized_amount_vs_year_score : ℚ
  competition_score : ℚ
  recomputed_competition_percentage : Option ℚ
  non_competitive_awards : Option ℕ
  total_awards : Option ℕ
deriving Repr, DecidableEq

/-- Predicate for `award.get('competition_code') in OTHER_THAN_FULL_COMPETITION_CODES`
(a missing code is Python `None`, which is never in the string list). -/
def isNonCompetitive (award : Award) : Bool :=
  (award.competition_code.map (fun c => decide (c ∈ OTHER_THAN_FULL_COMPETITION_CODES))).getD false

/-- The default award `{'type': 'prime_contract', 'amount': 0}` substituted
for an empty awards list (federal_contract.py line 162). -/
def defaultAward : Award :=
  { type := some "prime_contract", amount := some 0, competition_code := none }

/-- `calculate_final_contract_score` (federal_contract.py lines 147-216).
The two nested guards `if 'awards' in vendor_data and awards:` and
`if total_awards > 0:` are kept as nested conditionals selecting the
competition score actually used plus the stored recomputation values. -/
def calculate_final_contract_score (vendor_data : ContractVendorData) : ContractScoreResult :=
  let awards0 := vendor_data.awards.getD []
  let awards :=
    if awards0 = [] then [defaultAward]
    else awards0
  let amount_vs_year_scores :=
    awards.map (fun award => score_amount_vs_year (award.type.getD "prime_contract") (award.amount.getD 0))
  let normalized_amount_vs_year_score :=
    if amount_vs_year_scores ≠ [] then
      amount_vs_year_scores.sum / (amount_vs_year_scores.length : ℚ)
    else 10
  let competition_score := score_amount_vs_competition (vendor_data.competition_percentage.getD 100)
  let agency_score := score_amount_vs_agency (vendor_data.agency_count.getD 0)
  let sub_agency_score := score_amount_vs_sub_agency (vendor_data.sub_agency_count.getD 0)
  let total_awards := awards.length
  let non_competitive_awards := awards.countP (fun award => isNonCompetitive award)
  let step : ℚ × Option ℚ × Option ℕ × Option ℕ :=
    if vendor_data.awards.isSome ∧ awards ≠ [] then
      if 0 < total_awards then
        let competition_percentage := ((non_competitive_awards : ℚ) / (total_awards : ℚ)) * 100
        (score_amount_vs_competition competition_percentage,
         some competition_percentage, some non_competitive_awards, some total_awards)
      else (competition_score, none, none, none)
    else (competition_score, none, none, none)
  let competition_score := step.1
  let total_score :=
    agency_score * 0.25 + sub_agency_score * 0.20 +
    normalized_amount_vs_year_score * 0.25 + competition_score * 0.30
  { total_score := round2 total_score
    agency_score := agency_score
    sub_agency_score := sub_agency_score
    normalized_amount_vs_year_score := normalized_amount_vs_year_score
    competition_score := competition_score
    recomputed_competition_percentage := step.2.1
    non_competitive_awards := step.2.2.1
    total_awards := step.2.2.2 }

/-! ## src/score_calculator.py : weights and aggregation -/

/-- The five-component weight dict consumed by the aggregator
(score_calculator.py accesses exactly these five keys). -/
structure RiskWeights where
  financial_stability : ℚ
  past_performance : ℚ
  federal_contract : ℚ
  foreign_labor_risk : ℚ
  sanctions_risk : ℚ
deriving Repr, DecidableEq

/-- `DEFAULT_RISK_WEIGHTS` (score_calculator.py lines 18-24). -/
def DEFAULT_RISK_WEIGHTS : RiskWeights :=
  { financial_stability := 0.30
    past_performance := 0.25
    federal_contract := 0.15
    foreign_labor_risk := 0.20
    sanctions_risk := 0.10 }

/-- `sum(weights.values())`. -/
def sumWeights (w : RiskWeights) : ℚ :=
  w.financial_stability + w.past_performance + w.federal_contract +
    w.foreign_labor_risk + w.sanctions_risk

/-- Pointwise scalar multiple of a weight dict (used to state scale invariance). -/
def scaleWeights (c : ℚ) (w : RiskWeights) : RiskWeights :=
  { financial_stability := c * w.financial_stability
    past_performance := c * w.past_performance
    federal_contract := c * w.federal_contract
    foreign_labor_risk := c * w.foreign_labor_risk
    sanctions_risk := c * w.sanctions_risk }

/-- `calculate_vendor_risk_reliability` (score_calculator.py lines 26-75).
`weights=None` defaults to `DEFAULT_RISK_WEIGHTS`; the normalization divides
each weight by the sum of all weights. A zero total weight makes the Python
division `v/total_weight` raise `ZeroDivisionError`, modelled as `Except.error`.
The final `float(f"{weighted_score:.2f}")` is modelled by `round2`. -/
def calculate_vendor_risk_reliability (financial past contract labor sanctions : ℚ)
    (weights : Option RiskWeights) : Except String ℚ :=
  let w := weights.getD DEFAULT_RISK_WEIGHTS
  let total_weight := sumWeights w
  if total_weight = 0 then Except.error "ZeroDivisionError"
  else
    let nf := w.financial_stability / total_weight
    let np := w.past_performance / total_weight
    let nc := w.federal_contract / total_weight
    let nl := w.foreign_labor_risk / total_weight
    let ns := w.sanctions_risk / total_weight
    let weighted_score :=
      financial * nf + past * np + contract * nc + labor * nl + sanctions * ns
    Except.ok (round2 weighted_score)

/-- `VRRS_RISK_THRESHOLDS` (score_calculator.py lines 78-84): ordered
`(lower, upper, category, message)` tuples; the upper bound of the first band
is `float('inf')` (`none`). -/
def VRRS_RISK_THRESHOLDS : List (ℚ × Option ℚ × String × String) :=
  [(8.0, none, "Severe Risk",
      "Vendor is highly unreliable, with financial distress, contract cancellations, compliance violations, legal issues, sanctions, or high foreign labor dependency risks. Not recommended for contracts."),
   (6.5, some 7.99, "High Risk",
      "Vendor shows significant financial weaknesses, legal/sanctions issues, federal contract issues, or foreign labor dependency risks. Use only with mitigation strategies."),
   (4.5, some 6.49, "Moderate Risk",
      "Vendor shows some financial instability, potential legal concerns, or contract fulfillment issues and low foreign labor dependency. Due diligence is required before awarding contracts."),
   (2.5, some 4.49, "Low Risk",
      "Vendor is mostly stable with minor past performance, legal, or financial concerns and none to low foreign labor dependency. Recommend for partnerships."),
   (0, some 2.49, "Very Low Risk",
      "Vendor is financially stable, has strong past performance, no significant legal/sanctions issues, diverse federal contracts, and none to low foreign labor dependency. Recommend for partnership.")]

/-- `determine_risk_category` (score_calculator.py lines 87-101): first band
with `lower <= score <= upper` wins, else `("Unknown Risk", ...)`. -/
def determine_risk_category (score : ℚ)
    (thresholds : List (ℚ × Option ℚ × String × String) := VRRS_RISK_THRESHOLDS) :
    String × String :=
  match thresholds with
  | [] => ("Unknown Risk", "No interpretation available.")
  | (lower, upper, category, message) :: rest =>
      if bandOk lower upper score then (category, message)
      else determine_risk_category score rest

/-! ## src/past_performance.py -/

/-- `CANCELLATION_CRITERIA` (past_performance.py lines 7-11); each Python
3-element score list `[zero, one, many]` is modelled as a triple. Note the
source really spells the third key "Adminstrative". -/
def CANCELLATION_CRITERIA : List (String × (ℚ × ℚ × ℚ)) :=
  [("Non-Fulfillment", (1, 5, 10)), ("Compliance", (1, 7, 10)), ("Adminstrative", (5, 8, 10))]

/-- `CANCELLATION_CRITERIA.get(cancellation_type, [10, 5, 1])`. -/
def cancellationCriteriaFor (cancellation_type : String) : ℚ × ℚ × ℚ :=
  ((CANCELLATION_CRITERIA.find? (fun p => p.1 == cancellation_type)).map (fun p => p.2)).getD
    (10, 5, 1)

@[simp] theorem cancellationCriteriaFor_non_fulfillment :
    cancellationCriteriaFor "Non-Fulfillment" = (1, 5, 10) := rfl

@[simp] theorem cancellationCriteriaFor_compliance :
    cancellationCriteriaFor "Compliance" = (1, 7, 10) := rfl

@[simp] theorem cancellationCriteriaFor_adminstrative :
    cancellationCriteriaFor "Adminstrative" = (5, 8, 10) := rfl

/-- `get_cancellation_score` (past_performance.py lines 13-30). -/
def get_cancellation_score (cancellation_type : String) (count : ℤ) : ℚ :=
  let thresholds := cancellationCriteriaFor cancellation_type
  if count = 0 then thresholds.1
  else if count = 1 then thresholds.2.1
  else thresholds.2.2

/-- The slice of the vendor-data dict read by
`get_past_performance_cancellation_score`: the keys `Non-Fulfillment`,
`Compliance` and `Administrative`, each read with default 0. -/
structure PastPerformanceVendorData where
  non_fulfillment : Option ℤ
  compliance : Option ℤ
  administrative : Option ℤ
deriving Repr, DecidableEq

/-- `get_past_performance_cancellation_score` (past_performance.py lines 32-61).
Only the `Administrative` count is clamped at 0 before scoring. -/
def get_past_performance_cancellation_score (vendor_data : PastPerformanceVendorData) : ℚ :=
  let non_fulfillment_count := vendor_data.non_fulfillment.getD 0
  let compliance_count := vendor_data.compliance.getD 0
  let administrative_count0 := vendor_data.administrative.getD 0
  let administrative_count := if administrative_count0 < 0 then 0 else administrative_count0
  let non_fulfillment_score := get_cancellation_score "Non-Fulfillment" non_fulfillment_count
  let compliance_score := get_cancellation_score "Compliance" compliance_count
  let adminstrative_score := get_cancellation_score "Adminstrative" administrative_count
  round2 (non_fulfillment_score * 0.50 + compliance_score * 0.35 + adminstrative_score * 0.15)

/-! ## src/sanctions.py -/

/-- `VIOLATION_KEYWORDS` (sanctions.py lines 10-12). -/
def VIOLATION_KEYWORDS : List String :=
  ["violation", "violations", "violating", "violated"]

/-- `SANCTIONS_THRESHOLDS` (sanctions.py lines 15-21). -/
def SANCTIONS_THRESHOLDS : List (ℚ × Option ℚ × ℚ) :=
  [(0, some 0, 0), (1, some 3, 3), (4, some 10, 5), (11, some 20, 7), (21, none, 10)]

/-- Python `needle in haystack` substring containment on character lists. -/
def containsSub (needle : List Char) : List Char → Bool
  | [] => needle.isEmpty
  | c :: rest => needle.isPrefixOf (c :: rest) || containsSub needle rest

/-- `text.lower()` as a character list (ASCII text in all inputs of interest). -/
def lowerChars (text : String) : List Char :=
  text.data.map Char.toLower

/-- Decimal value of a digit run, as `int()` applied to a `findall` capture. -/
def natOfDigits (ds : List Char) : ℕ :=
  ds.foldl (fun n c => 10 * n + (c.toNat - 48)) 0

/-- `re.findall(r'(\d+)\s+violation', text)` captures (with `lit` the literal
tail of the pattern): scanning left to right, a match is a maximal digit run,
followed by at least one whitespace character, followed by `lit`; scanning
resumes after the matched span (regex matches do not overlap). Greedy `\d+`
and `\s+` need no backtracking here because a digit cannot match `\s` and a
whitespace character cannot start `lit`. -/
def findallNumWsLit (lit : List Char) : List Char → List ℕ
  | [] => []
  | c :: rest =>
      if c.isDigit then
        let ds := c :: rest.takeWhile (fun d => d.isDigit)
        let afterDigits := rest.dropWhile (fun d => d.isDigit)
        let ws := afterDigits.takeWhile (fun d => d.isWhitespace)
        let afterWs := afterDigits.dropWhile (fun d => d.isWhitespace)
        if ws ≠ [] ∧ lit.isPrefixOf afterWs then
          natOfDigits ds :: findallNumWsLit lit (afterWs.drop lit.length)
        else
          findallNumWsLit lit rest
      else
        findallNumWsLit lit rest
termination_by hay => hay.length
decreasing_by
  · have h1 : (rest.dropWhile (fun d => d.isDigit)).length ≤ rest.length :=
      (List.dropWhile_sublist _).length_le
    have h2 : ((rest.dropWhile (fun d => d.isDigit)).dropWhile (fun d => d.isWhitespace)).length ≤
        (rest.dropWhile (fun d => d.isDigit)).length :=
      (List.dropWhile_sublist _).length_le
    have h3 := (List.drop_sublist lit.length
      ((rest.dropWhile (fun d => d.isDigit)).dropWhile (fun d => d.isWhitespace))).length_le
    simp only [List.length_cons]
    omega
  · simp only [List.length_cons]; omega
  · simp only [List.length_cons]; omega

/-- `re.findall(r'<lit>\s+(\d+)\s+', text)` captures (`lit` is `settle` or
`alleged`): a match is the literal `lit`, at least one whitespace character, a
maximal digit run (the capture), and at least one further whitespace
character; scanning is left to right without overlaps. The `lit ≠ []` guard
only rules out the degenerate empty literal (never used). -/
def findallLitWsNumWs (lit : List Char) : List Char → List ℕ
  | [] => []
  | c :: rest =>
      if lit ≠ [] ∧ lit.isPrefixOf (c :: rest) then
        let afterLit := (c :: rest).drop lit.length
        let ws1 := afterLit.takeWhile (fun d => d.isWhitespace)
        let afterWs1 := afterLit.dropWhile (fun d => d.isWhitespace)
        let ds := afterWs1.takeWhile (fun d => d.isDigit)
        let afterDs := afterWs1.dropWhile (fun d => d.isDigit)
        let ws2 := afterDs.takeWhile (fun d => d.isWhitespace)
        let afterWs2 := afterDs.dropWhile (fun d => d.isWhitespace)
        if ws1 ≠ [] ∧ ds ≠ [] ∧ ws2 ≠ [] then
          natOfDigits ds :: findallLitWsNumWs lit afterWs2
        else
          findallLitWsNumWs lit rest
      else
        findallLitWsNumWs lit rest
termination_by hay => hay.length
decreasing_by
  · rename_i h
    have hlit : 1 ≤ lit.length := by
      rcases lit with _ | ⟨x, xs⟩
      · exact absurd rfl h.1
      · simp
    have h0 : ((c :: rest).drop lit.length).length = rest.length + 1 - lit.length := by
      simp [List.length_drop]
    have h2 : (((c :: rest).drop lit.length).dropWhile (fun d => d.isWhitespace)).length ≤
        ((c :: rest).drop lit.length).length := (List.dropWhile_sublist _).length_le
    have h3 : ((((c :: rest).drop lit.length).dropWhile (fun d => d.isWhitespace)).dropWhile
          (fun d => d.isDigit)).length ≤
        (((c :: rest).drop lit.length).dropWhile (fun d => d.isWhitespace)).length :=
      (List.dropWhile_sublist _).length_le
    have h4 : (((((c :: rest).drop lit.length).dropWhile (fun d => d.isWhitespace)).dropWhile
          (fun d => d.isDigit)).dropWhile (fun d => d.isWhitespace)).length ≤
        ((((c :: rest).drop lit.length).dropWhile (fun d => d.isWhitespace)).dropWhile
          (fun d => d.isDigit)).length :=
      (List.dropWhile_sublist _).length_le
    simp only [List.length_cons]
    omega
  · simp only [List.length_cons]; omega
  · simp only [List.length_cons]; omega

/-- `max(...)` over the captured numbers (Python `max` on a nonempty list of
nonnegative ints agrees with a `max` fold from 0). -/
def maxNat (l : List ℕ) : ℕ := l.foldl Nat.max 0

/-- `extract_violation_count` (sanctions.py lines 23-56): lowercase the text,
return 0 if no violation keyword occurs, otherwise try the three numeric
patterns in order and return the maximum capture of the first pattern that
matches anywhere; if a keyword occurs but no pattern matches, return 1.
Non-string/NaN input (which returns 0) is outside the `String` model. -/
def extract_violation_count (text : String) : ℕ :=
  let t := lowerChars text
  if ¬ (VIOLATION_KEYWORDS.any (fun k => containsSub k.data t)) then 0
  else
    let m1 := findallNumWsLit "violation".data t
    if m1 ≠ [] then maxNat m1
    else
      let m2 := findallLitWsNumWs "settle".data t
      if m2 ≠ [] then maxNat m2
      else
        let m3 := findallLitWsNumWs "alleged".data t
        if m3 ≠ [] then maxNat m3
        else 1

/-- `get_sanctions_score` (sanctions.py lines 74-123) restricted to the dict
input shape used by `calculate_scores`: `none` models a vendor dict without a
`sanctions` key (the "Invalid sanctions data format" early return `(0, 0, ...)`),
`some texts` models `vendor_data['sanctions']` as a list of strings. Returns
`(normalized_score, total_violations)`; the details dict is elided. -/
def get_sanctions_score (sanctions : Option (List String)) : ℚ × ℕ :=
  match sanctions with
  | none => (0, 0)
  | some texts =>
      let total_violations := (texts.map (fun t => extract_violation_count t)).sum
      let sanctions_score := score_with_thresholds (total_violations : ℚ) SANCTIONS_THRESHOLDS
      (min sanctions_score 10, total_violations)

/-! ## src/financial_stability.py : trend analysis -/

/-- `TREND_SCORES` (financial_stability.py lines 56-65): per-metric lookup
from trend classification to trend score. -/
def TREND_SCORES : List (String × List (String × ℚ)) :=
  [("ROA", [("improving", 2), ("stable", 5), ("declining", 10)]),
   ("ROE", [("improving", 2), ("stable", 5), ("declining", 10)]),
   ("Altman_Z", [("improving", 2), ("stable", 5), ("declining", 10)]),
   ("DTE", [("improving", 10), ("stable", 5), ("declining", 2)]),
   ("DTI", [("improving", 10), ("stable", 5), ("declining", 2)])]

/-- `TREND_SCORES[metric][trend]`; the `getD 0` default is unreachable for the
five metric keys and three trend labels the source uses (a Python `KeyError`
would need a key outside both tables). -/
def trendScore (metric trend : String) : ℚ :=
  ((((TREND_SCORES.find? (fun p => p.1 == metric)).map (fun p => p.2)).getD []).find?
      (fun p => p.1 == trend) |>.map (fun p => p.2)).getD 0

@[simp] theorem trendScore_dte_improving : trendScore "DTE" "improving" = 10 := rfl

@[simp] theorem trendScore_dte_stable : trendScore "DTE" "stable" = 5 := rfl

@[simp] theorem trendScore_roa_improving : trendScore "ROA" "improving" = 2 := rfl

/-- Lexicographic `<=` on (year, value) pairs, the order `sorted(...)` uses on
Python 2-tuples. -/
def pairLE (a b : ℚ × ℚ) : Bool :=
  decide (a.1 < b.1) || (decide (a.1 = b.1) && decide (a.2 ≤ b.2))

/-- Ordered insertion for `sortPairs`. -/
def insertPair (x : ℚ × ℚ) : List (ℚ × ℚ) → List (ℚ × ℚ)
  | [] => [x]
  | y :: ys => if pairLE x y then x :: y :: ys else y :: insertPair x ys

/-- `sorted(zip(years, values))`: lexicographically ascending sort of the
(year, value) pairs (insertion sort; any correct sort agrees because the
lexicographic order is total). -/
def sortPairs (l : List (ℚ × ℚ)) : List (ℚ × ℚ) :=
  l.foldr insertPair []

/-- Ordinary least-squares slope of `stats.linregress`, exact over ℚ:
`(nΣxy − ΣxΣy) / (nΣx² − (Σx)²)`. A zero denominator (all years equal, where
scipy produces nan) falls to ℚ's zero-division convention; no claim touches
that case. -/
def linregressSlope (pts : List (ℚ × ℚ)) : ℚ :=
  let n : ℚ := pts.length
  let sx := (pts.map (fun p => p.1)).sum
  let sy := (pts.map (fun p => p.2)).sum
  let sxy := (pts.map (fun p => p.1 * p.2)).sum
  let sxx := (pts.map (fun p => p.1 * p.1)).sum
  (n * sxy - sx * sy) / (n * sxx - sx * sx)

/-- Square of the Pearson correlation of `stats.linregress`, exact over ℚ.
The source tests `abs(r_value) > 0.5`, which is equivalent to `r² > 1/4`. -/
def linregressR2 (pts : List (ℚ × ℚ)) : ℚ :=
  let n : ℚ := pts.length
  let sx := (pts.map (fun p => p.1)).sum
  let sy := (pts.map (fun p => p.2)).sum
  let sxy := (pts.map (fun p => p.1 * p.2)).sum
  let sxx := (pts.map (fun p => p.1 * p.1)).sum
  let syy := (pts.map (fun p => p.2 * p.2)).sum
  (n * sxy - sx * sy) * (n * sxy - sx * sy) / ((n * sxx - sx * sx) * (n * syy - sy * sy))

/-- The fields of the dict returned by `analyze_trend` that the claims
consume; the visualization fields (intercept, p_value, colors, symbols, ...)
are elided. -/
structure TrendResult where
  trend : String
  slope : ℚ
  score : ℚ
deriving Repr, DecidableEq

/-- `analyze_trend` (financial_stability.py lines 107-216).
`statistical_sig` (`p_value < 0.05`, line 156) is an oracle parameter: the
p-value involves the t-distribution and is not rational arithmetic; every
theorem below holds for both values of the oracle. The NaN filter on values
(line 125) is the identity in the ℚ model, and `abs(r_value) > 0.5` is
computed exactly as `r² > 1/4`. -/
def analyze_trend (statistical_sig : Bool) (years values : List ℚ) (metric : String) :
    TrendResult :=
  if years.length < 2 ∨ values.length < 2 then
    { trend := "stable", slope := 0, score := trendScore metric "stable" }
  else
    let valid_data := years.zip values
    if valid_data.length < 2 then
      { trend := "stable", slope := 0, score := trendScore metric "stable" }
    else
      let sorted_data := sortPairs valid_data
      let cleaned_values := sorted_data.map (fun p => p.2)
      let slope := linregressSlope sorted_data
      let first_value := cleaned_values.headD 0
      let last_value := cleaned_values.getLastD 0
      let relative_change :=
        if first_value ≠ 0 then (last_value - first_value) / |first_value|
        else if last_value = 0 then 0 else if last_value > 0 then (1 : ℚ) else -1
      let correlation_sig : Bool := decide (linregressR2 sorted_data > 1/4)
      let magnitude_sig : Bool :=
        if ["ROA", "ROE"].contains metric then decide (|relative_change| > 0.15)
        else if metric = "Altman_Z" then decide (|relative_change| > 0.2)
        else decide (|relative_change| > 0.25)
      let significant := statistical_sig || (correlation_sig && magnitude_sig)
      let significant :=
        if sorted_data.length ≤ 3 then significant || decide (|relative_change| > 0.3)
        else significant
      let trend :=
        if !significant then "stable"
        else if ["ROA", "ROE", "Altman_Z"].contains metric then
          (if slope > 0 then "improving" else "declining")
        else
          (if slope < 0 then "improving" else "declining")
      { trend := trend, slope := slope, score := trendScore metric trend }

/-! ## src/score_calculator.py : calculate_scores -/

/-- The slice of the vendor-data dict that determines the sanctions component
of `calculate_scores` (lines 119-158): the `sanctions` text list consumed by
`get_sanctions_score` and the pre-supplied `sanctions_risk_score` field. -/
structure ScoresVendorData where
  sanctions : Option (List String)
  sanctions_risk_score : Option ℚ
deriving Repr, DecidableEq

set_option linter.unusedVariables false in
/-- `calculate_scores` (score_calculator.py lines 104-158), restricted to the
computation of the final VRRS score. The financial, past-performance, federal
contract and foreign-labor dimension scores are parameters standing for the
values returned by their scorers (their modules are embedded separately); the
function body mirrors lines 117-158: the `get_sanctions_score` call of line
123 whose result is overwritten by the reassignment of lines 139-148, and the
aggregation call of lines 151-158. The interpretation strings and detail
dicts of lines 160-284 are elided. -/
def calculate_scores (financial_stability_score past_performance_cancellation_score
    federal_contract_score foreign_labor_score : ℚ) (vendor_data : ScoresVendorData)
    (custom_weights : Option RiskWeights) : Except String ℚ :=
  let weights := custom_weights.getD DEFAULT_RISK_WEIGHTS
  let sanctions_risk_score := get_sanctions_score vendor_data.sanctions
  let sanctions_risk_score_raw := vendor_data.sanctions_risk_score.getD 0
  let sanctions_risk_score :=
    if sanctions_risk_score_raw ≤ 10 then sanctions_risk_score_raw
    else if sanctions_risk_score_raw ≤ 100 then sanctions_risk_score_raw / 10
    else 10
  calculate_vendor_risk_reliability
    financial_stability_score
    past_performance_cancellation_score
    federal_contract_score
    foreign_labor_score
    sanctions_risk_score
    (some weights)

/-! ## Claim theorems -/

/-- C10: for every threshold table and every value, `score_with_thresholds`
returns the score of the first band in table order with
`low ≤ value ≤ high`, and 0 when no band matches; being a total Lean
function, it never raises. -/
theorem C10_threshold_first_match (value : ℚ) (table : List (ℚ × Option ℚ × ℚ)) :
    score_with_thresholds value table =
      (((table.find? (fun b => decide (bandOk b.1 b.2.1 value))).map (fun b => b.2.2)).getD 0) := by
  induction table with
  | nil => rfl
  | cons b rest ih =>
      obtain ⟨lo, hi, s⟩ := b
      by_cases h : bandOk lo hi value
      · simp [score_with_thresholds, List.find?, h]
      · simp [score_with_thresholds, List.find?, h, ih]

/-- Closed form of the category component of `determine_risk_category` on the
default `VRRS_RISK_THRESHOLDS` table (helper lemma). -/
theorem determine_risk_category_closed_form (s : ℚ) :
    (determine_risk_category s).1 =
      if 8.0 ≤ s then "Severe Risk"
      else if 6.5 ≤ s ∧ s ≤ 7.99 then "High Risk"
      else if 4.5 ≤ s ∧ s ≤ 6.49 then "Moderate Risk"
      else if 2.5 ≤ s ∧ s ≤ 4.49 then "Low Risk"
      else if 0 ≤ s ∧ s ≤ 2.49 then "Very Low Risk"
      else "Unknown Risk" := by
  simp only [determine_risk_category, VRRS_RISK_THRESHOLDS, bandOk, leOrInf, and_true]
  split_ifs <;> rfl

/-- C8 counterexample: at score 2.495 (inside the gap between the upper bound
2.49 of the "Very Low Risk" band and the lower bound 2.5 of the "Low Risk"
band) `determine_risk_category` returns "Unknown Risk", not the
"Very Low Risk" that the claimed band `[0, 2.5)` requires. -/
theorem C8_counterexample :
    (determine_risk_category (499/200)).1 = "Unknown Risk" ∧
      ¬ (determine_risk_category (499/200)).1 = "Very Low Risk" := by
  have h : (determine_risk_category (499/200)).1 = "Unknown Risk" := by
    rw [determine_risk_category_closed_form]
    norm_num
  refine ⟨h, ?_⟩
  rw [h]
  simp only [String.reduceEq, not_false_eq_true]

/-- C8 amended: the bands of `determine_risk_category` are closed on both
ends — [0, 2.49] Very Low Risk, [2.5, 4.49] Low Risk, [4.5, 6.49] Moderate
Risk, [6.5, 7.99] High Risk, [8, ∞) Severe Risk — and scores falling in the
gaps (2.49, 2.5), (4.49, 4.5), (6.49, 6.5) and (7.99, 8) are mapped to
"Unknown Risk". -/
theorem C8_amended_bands (s : ℚ) :
    (0 ≤ s → s ≤ 2.49 → (determine_risk_category s).1 = "Very Low Risk") ∧
    (2.5 ≤ s → s ≤ 4.49 → (determine_risk_category s).1 = "Low Risk") ∧
    (4.5 ≤ s → s ≤ 6.49 → (determine_risk_category s).1 = "Moderate Risk") ∧
    (6.5 ≤ s → s ≤ 7.99 → (determine_risk_category s).1 = "High Risk") ∧
    (8 ≤ s → (determine_risk_category s).1 = "Severe Risk") ∧
    (2.49 < s → s < 2.5 → (determine_risk_category s).1 = "Unknown Risk") ∧
    (4.49 < s → s < 4.5 → (determine_risk_category s).1 = "Unknown Risk") ∧
    (6.49 < s → s < 6.5 → (determine_risk_category s).1 = "Unknown Risk") ∧
    (7.99 < s → s < 8 → (determine_risk_category s).1 = "Unknown Risk") := by
  refine ⟨fun h1 h2 => ?_, fun h1 h2 => ?_, fun h1 h2 => ?_, fun h1 h2 => ?_, fun h1 => ?_,
    fun h1 h2 => ?_, fun h1 h2 => ?_, fun h1 h2 => ?_, fun h1 h2 => ?_⟩ <;>
    rw [determine_risk_category_closed_form]
  · rw [if_neg (by intro h; linarith), if_neg (by intro h; linarith [h.1]),
      if_neg (by intro h; linarith [h.1]), if_neg (by intro h; linarith [h.1]),
      if_pos ⟨by linarith, by linarith⟩]
  · rw [if_neg (by intro h; linarith), if_neg (by intro h; linarith [h.1]),
      if_neg (by intro h; linarith [h.1]), if_pos ⟨by linarith, by linarith⟩]
  · rw [if_neg (by intro h; linarith), if_neg (by intro h; linarith [h.1]),
      if_pos ⟨by linarith, by linarith⟩]
  · rw [if_neg (by intro h; linarith), if_pos ⟨by linarith, by linarith⟩]
  · rw [if_pos (by linarith)]
  · rw [if_neg (by intro h; linarith), if_neg (by intro h; linarith [h.1]),
      if_neg (by intro h; linarith [h.1]), if_neg (by intro h; linarith [h.1]),
      if_neg (by intro h; linarith [h.2])]
  · rw [if_neg (by intro h; linarith), if_neg (by intro h; linarith [h.1]),
      if_neg (by intro h; linarith [h.1]), if_neg (by intro h; linarith [h.2]),
      if_neg (by intro h; linarith [h.2])]
  · rw [if_neg (by intro h; linarith), if_neg (by intro h; linarith [h.1]),
      if_neg (by intro h; linarith [h.2]), if_neg (by intro h; linarith [h.2]),
      if_neg (by intro h; linarith [h.2])]
  · rw [if_neg (by intro h; linarith), if_neg (by intro h; linarith [h.2]),
      if_neg (by intro h; linarith [h.2]), if_neg (by intro h; linarith [h.2]),
      if_neg (by intro h; linarith [h.2])]

/-- C8 witness: instantiating the amended band theorem at score 1. -/
theorem C8_witness : (determine_risk_category 1).1 = "Very Low Risk" :=
  (C8_amended_bands 1).1 (by norm_num) (by norm_num)

/-- C6 counterexample: for the all-zero weight mapping the aggregator fails
with the generic unchecked `ZeroDivisionError` raised by the normalization
division, not with a distinct error defined for invalid weight
configurations (no such error exists anywhere in the source). -/
theorem C6_counterexample :
    calculate_vendor_risk_reliability 5 5 5 5 5 (some ⟨0, 0, 0, 0, 0⟩) =
      Except.error "ZeroDivisionError" := by
  norm_num [calculate_vendor_risk_reliability, sumWeights]

/-- C6 amended: for every weight mapping whose values sum to zero,
`calculate_vendor_risk_reliability` fails with the generic
`ZeroDivisionError` from the unguarded normalization division `v / total`;
the source defines no distinct invalid-weight-configuration error. -/
theorem C6_amended_zero_division (financial past contract labor sanctions : ℚ)
    (w : RiskWeights) (hw : sumWeights w = 0) :
    calculate_vendor_risk_reliability financial past contract labor sanctions (some w) =
      Except.error "ZeroDivisionError" := by
  simp only [calculate_vendor_risk_reliability, Option.getD_some]
  rw [if_pos hw]

/-- C6 witness: a mixed-sign weight mapping summing to zero. -/
theorem C6_witness :
    calculate_vendor_risk_reliability 1 2 3 4 5 (some ⟨1, -1, 2, -2, 0⟩) =
      Except.error "ZeroDivisionError" :=
  C6_amended_zero_division 1 2 3 4 5 ⟨1, -1, 2, -2, 0⟩ (by norm_num [sumWeights])

/-- C5: for every five dimension scores and every weight mapping with
positive total, scaling all weights by a positive scalar does not change the
aggregate VRRS score (weights are normalized by their sum before use). -/
theorem C5_weight_scale_invariance (financial past contract labor sanctions : ℚ)
    (w : RiskWeights) (c : ℚ) (hw : 0 < sumWeights w) (hc : 0 < c) :
    calculate_vendor_risk_reliability financial past contract labor sanctions
        (some (scaleWeights c w)) =
      calculate_vendor_risk_reliability financial past contract labor sanctions (some w) := by
  have hw0 : sumWeights w ≠ 0 := ne_of_gt hw
  have hc0 : c ≠ 0 := ne_of_gt hc
  have hsum : sumWeights (scaleWeights c w) = c * sumWeights w := by
    simp only [sumWeights, scaleWeights]; ring
  have hs0 : sumWeights (scaleWeights c w) ≠ 0 := by
    rw [hsum]; exact mul_ne_zero hc0 hw0
  have hdiv : ∀ v : ℚ, c * v / (c * sumWeights w) = v / sumWeights w := fun v =>
    mul_div_mul_left v (sumWeights w) hc0
  simp only [calculate_vendor_risk_reliability, Option.getD_some]
  rw [if_neg hs0, if_neg hw0]
  simp only [hsum]
  simp only [scaleWeights]
  simp only [hdiv]

/-- C5 witness: the all-ones weight mapping and its doubling give the same
aggregate. -/
theorem C5_witness :
    calculate_vendor_risk_reliability 1 2 3 4 5 (some (scaleWeights 2 ⟨1, 1, 1, 1, 1⟩)) =
      calculate_vendor_risk_reliability 1 2 3 4 5 (some ⟨1, 1, 1, 1, 1⟩) :=
  C5_weight_scale_invariance 1 2 3 4 5 ⟨1, 1, 1, 1, 1⟩ 2
    (by norm_num [sumWeights]) (by norm_num)

/-- C3: in `calculate_scores` the sanctions component entering the VRRS
weighted sum is the pre-supplied `sanctions_risk_score` field — 0 when the
field is absent, taken as is when at most 10, divided by 10 when in (10, 100],
capped at 10 above 100 — and the result of the `get_sanctions_score` call is
never used: the aggregate is unchanged under any replacement of the sanctions
text list. -/
theorem C3_sanctions_component (financial past contract labor : ℚ)
    (vd : ScoresVendorData) (cw : Option RiskWeights) :
    (vd.sanctions_risk_score = none →
      calculate_scores financial past contract labor vd cw =
        calculate_vendor_risk_reliability financial past contract labor 0
          (some (cw.getD DEFAULT_RISK_WEIGHTS))) ∧
    (∀ r, vd.sanctions_risk_score = some r → r ≤ 10 →
      calculate_scores financial past contract labor vd cw =
        calculate_vendor_risk_reliability financial past contract labor r
          (some (cw.getD DEFAULT_RISK_WEIGHTS))) ∧
    (∀ r, vd.sanctions_risk_score = some r → 10 < r → r ≤ 100 →
      calculate_scores financial past contract labor vd cw =
        calculate_vendor_risk_reliability financial past contract labor (r / 10)
          (some (cw.getD DEFAULT_RISK_WEIGHTS))) ∧
    (∀ r, vd.sanctions_risk_score = some r → 100 < r →
      calculate_scores financial past contract labor vd cw =
        calculate_vendor_risk_reliability financial past contract labor 10
          (some (cw.getD DEFAULT_RISK_WEIGHTS))) ∧
    (∀ texts, calculate_scores financial past contract labor
        { vd with sanctions := texts } cw =
      calculate_scores financial past contract labor vd cw) := by
  refine ⟨fun h => ?_, fun r h hr => ?_, fun r h hr1 hr2 => ?_, fun r h hr => ?_,
    fun texts => rfl⟩
  · simp only [calculate_scores, h, Option.getD_none]
    rw [if_pos (by norm_num)]
  · simp only [calculate_scores, h, Option.getD_some]
    rw [if_pos hr]
  · simp only [calculate_scores, h, Option.getD_some]
    rw [if_neg (by linarith), if_pos hr2]
  · simp only [calculate_scores, h, Option.getD_some]
    rw [if_neg (by linarith), if_neg (by linarith)]

/-- C3 witness: a record with no `sanctions_risk_score` field contributes a
sanctions component of 0 to the aggregate. -/
theorem C3_witness :
    calculate_scores 1 2 3 4 ⟨none, none⟩ none =
      calculate_vendor_risk_reliability 1 2 3 4 0 (some DEFAULT_RISK_WEIGHTS) :=
  (C3_sanctions_component 1 2 3 4 ⟨none, none⟩ none).1 rfl

/-- C4 counterexample: a record with a negative Non-Fulfillment count does not
score as a record with that count clamped to 0: the source clamps only the
Administrative count, so Non-Fulfillment count -1 falls to the `else`
(≥ 2 occurrences) branch and scores 10·0.50 + 1·0.35 + 5·0.15 = 6.1, while the
claim requires the zero-occurrence score 1·0.50 + 1·0.35 + 5·0.15 = 1.6. -/
theorem C4_counterexample :
    get_past_performance_cancellation_score ⟨some (-1), some 0, some 0⟩ = 6.1 ∧
    get_past_performance_cancellation_score ⟨some 0, some 0, some 0⟩ = 1.6 ∧
    get_past_performance_cancellation_score ⟨some (-1), some 0, some 0⟩ ≠
      get_past_performance_cancellation_score ⟨some 0, some 0, some 0⟩ := by
  refine ⟨?_, ?_, ?_⟩ <;>
    norm_num [get_past_performance_cancellation_score, get_cancellation_score,
      round2, roundHalfEven]

/-- C4 amended: only negative Administrative counts are clamped to 0 before
scoring (so a negative Administrative count receives the zero-occurrence
Administrative score); negative Non-Fulfillment or Compliance counts are not
clamped and score as ≥ 2 occurrences of their category. -/
theorem C4_amended_clamping (vd : PastPerformanceVendorData) :
    (∀ n : ℤ, vd.administrative = some n → n < 0 →
      get_past_performance_cancellation_score vd =
        get_past_performance_cancellation_score { vd with administrative := some 0 }) ∧
    (∀ n : ℤ, vd.non_fulfillment = some n → n < 0 →
      get_past_performance_cancellation_score vd =
        get_past_performance_cancellation_score { vd with non_fulfillment := some 2 }) ∧
    (∀ n : ℤ, vd.compliance = some n → n < 0 →
      get_past_performance_cancellation_score vd =
        get_past_performance_cancellation_score { vd with compliance := some 2 }) := by
  obtain ⟨nf, cp, ad⟩ := vd
  refine ⟨fun n h hn => ?_, fun n h hn => ?_, fun n h hn => ?_⟩
  · have h' : ad = some n := h
    subst h'
    simp only [get_past_performance_cancellation_score, get_cancellation_score,
      Option.getD_some]
    rw [if_pos hn, if_neg (show ¬(0 : ℤ) < 0 by omega)]
  · have h' : nf = some n := h
    subst h'
    simp only [get_past_performance_cancellation_score, get_cancellation_score,
      Option.getD_some]
    rw [if_neg (show ¬n = 0 by omega), if_neg (show ¬n = 1 by omega),
      if_neg (show ¬(2 : ℤ) = 0 by omega), if_neg (show ¬(2 : ℤ) = 1 by omega)]
  · have h' : cp = some n := h
    subst h'
    simp only [get_past_performance_cancellation_score, get_cancellation_score,
      Option.getD_some]
    rw [if_neg (show ¬n = 0 by omega), if_neg (show ¬n = 1 by omega),
      if_neg (show ¬(2 : ℤ) = 0 by omega), if_neg (show ¬(2 : ℤ) = 1 by omega)]

/-- C4 witness: instantiating the amended clamping theorem for a record with
Administrative count -5. -/
theorem C4_witness :
    get_past_performance_cancellation_score ⟨some 0, some 0, some (-5)⟩ =
      get_past_performance_cancellation_score ⟨some 0, some 0, some 0⟩ :=
  (C4_amended_clamping ⟨some 0, some 0, some (-5)⟩).1 (-5) rfl (by norm_num)

/-- C7: a record whose awards key holds the empty list produces exactly the
same result as the same record with a single zero-amount prime_contract
award (the source substitutes that default award for an empty list). -/
theorem C7_empty_awards_default (vd : ContractVendorData) (h : vd.awards = some []) :
    calculate_final_contract_score vd =
      calculate_final_contract_score { vd with awards := some [defaultAward] } := by
  obtain ⟨aw, cp, ac, sc⟩ := vd
  have h' : aw = some [] := h
  subst h'
  rfl

/-- C7 witness: the equality at a concrete record. -/
theorem C7_witness :
    calculate_final_contract_score ⟨some [], some 3, some 2, some 1⟩ =
      calculate_final_contract_score ⟨some [defaultAward], some 3, some 2, some 1⟩ :=
  C7_empty_awards_default ⟨some [], some 3, some 2, some 1⟩ rfl

/-- C1 counterexample: a vendor record with a non-empty awards list in which
no award carries a competition code, and with a supplied
`competition_percentage` of 100. The claim requires the competition component
`score_amount_vs_competition 100 = 10`; the function instead recomputes the
percentage from the awards (0 of 1 non-competitive = 0%) and uses score 1. -/
theorem C1_counterexample :
    (calculate_final_contract_score
      { awards := some [defaultAward]
        competition_percentage := some 100
        agency_count := some 0
        sub_agency_count := some 0 }).competition_score = 1 ∧
    score_amount_vs_competition 100 = 10 := by
  constructor
  · norm_num [calculate_final_contract_score, defaultAward, score_amount_vs_competition,
      score_amount_vs_agency, score_amount_vs_sub_agency, score_amount_vs_year,
      awardTypeThresholds, AWARD_TYPE_THRESHOLDS, COMPETITION_THRESHOLDS,
      AGENCY_THRESHOLDS, SUB_AGENCY_THRESHOLDS, score_with_thresholds, bandOk,
      leOrInf, isNonCompetitive, List.countP, List.countP.go]
  · norm_num [score_amount_vs_competition, score_with_thresholds,
      COMPETITION_THRESHOLDS, bandOk, leOrInf]

/-- C1 amended: whenever the record carries an awards key, the competition
percentage is recomputed from the award records as
count(code ∈ OTHER_THAN_FULL_COMPETITION_CODES) / total awards × 100,
overriding any pre-supplied percentage: for a non-empty list the competition
component is the band score of that recomputed percentage (and the recomputed
percentage is stored back), for an empty list the default zero-amount
prime_contract award makes the recomputed percentage 0 and the component 1,
and in particular with no award carrying a listed code the component is 1.
The supplied percentage (default 100, worst case) is used only when the
record has no awards key at all. -/
theorem C1_amended_competition_override (vd : ContractVendorData) :
    (∀ l, vd.awards = some l → l ≠ [] →
      (calculate_final_contract_score vd).competition_score =
        score_amount_vs_competition
          ((l.countP (fun a => isNonCompetitive a) : ℚ) / (l.length : ℚ) * 100) ∧
      (calculate_final_contract_score vd).recomputed_competition_percentage =
        some ((l.countP (fun a => isNonCompetitive a) : ℚ) / (l.length : ℚ) * 100)) ∧
    (vd.awards = some [] →
      (calculate_final_contract_score vd).competition_score = 1 ∧
      (calculate_final_contract_score vd).recomputed_competition_percentage = some 0) ∧
    (∀ l, vd.awards = some l →
      (∀ a ∈ l, ∀ cd, a.competition_code = some cd →
        cd ∉ OTHER_THAN_FULL_COMPETITION_CODES) →
      (calculate_final_contract_score vd).competition_score = 1) ∧
    (vd.awards = none →
      (calculate_final_contract_score vd).competition_score =
        score_amount_vs_competition (vd.competition_percentage.getD 100)) := by
  obtain ⟨aw, cp, ac, sc⟩ := vd
  refine ⟨fun l hA hl => ?_, fun hA => ?_, fun l hA hcode => ?_, fun hA => ?_⟩
  · have h' : aw = some l := hA
    subst h'
    simp only [calculate_final_contract_score, Option.getD_some, Option.isSome_some]
    rw [if_neg hl]
    rw [if_pos ⟨trivial, hl⟩, if_pos (List.length_pos.mpr hl)]
    exact ⟨rfl, rfl⟩
  · have h' : aw = some [] := hA
    subst h'
    constructor
    · norm_num [calculate_final_contract_score, defaultAward, isNonCompetitive,
        score_amount_vs_competition, score_with_thresholds, COMPETITION_THRESHOLDS,
        bandOk, leOrInf, List.countP, List.countP.go]
    · norm_num [calculate_final_contract_score, defaultAward, isNonCompetitive,
        List.countP, List.countP.go]
  · have h' : aw = some l := hA
    subst h'
    by_cases hl : l = []
    · subst hl
      norm_num [calculate_final_contract_score, defaultAward, isNonCompetitive,
        score_amount_vs_competition, score_with_thresholds, COMPETITION_THRESHOLDS,
        bandOk, leOrInf, List.countP, List.countP.go]
    · have hcnt : l.countP (fun a => isNonCompetitive a) = 0 := by
        rw [List.countP_eq_zero]
        intro a ha
        cases hcc : a.competition_code with
        | none => simp [isNonCompetitive, hcc]
        | some cd => simp [isNonCompetitive, hcc, hcode a ha cd hcc]
      have hlen : 0 < l.length := List.length_pos.mpr hl
      simp only [calculate_final_contract_score, Option.getD_some, Option.isSome_some]
      rw [if_neg hl]
      rw [if_pos ⟨trivial, hl⟩, if_pos hlen, hcnt]
      norm_num [score_amount_vs_competition, score_with_thresholds,
        COMPETITION_THRESHOLDS, bandOk, leOrInf]
  · have h' : aw = none := hA
    subst h'
    rfl

/-- C1 witness: a record with two awards, one carrying the listed code "ONE",
and a supplied percentage of 3 (band score 1). The recomputed percentage
1/2 × 100 = 50 overrides it and the competition component is its band
score 4. -/
theorem C1_witness :
    (calculate_final_contract_score
      ⟨some [⟨some "prime_contract", none, some "ONE"⟩,
             ⟨some "prime_contract", none, none⟩], some 3, some 1, some 1⟩).competition_score
      = 4 := by
  have h := (C1_amended_competition_override
      ⟨some [⟨some "prime_contract", none, some "ONE"⟩,
             ⟨some "prime_contract", none, none⟩], some 3, some 1, some 1⟩).1
    [⟨some "prime_contract", none, some "ONE"⟩, ⟨some "prime_contract", none, none⟩]
    rfl (by simp)
  have hcount : List.countP (fun a => isNonCompetitive a)
      [(⟨some "prime_contract", none, some "ONE"⟩ : Award),
       ⟨some "prime_contract", none, none⟩] = 1 := by decide
  rw [h.1, hcount]
  norm_num [score_amount_vs_competition, score_with_thresholds,
    COMPETITION_THRESHOLDS, bandOk, leOrInf]

/-- C9: `extract_violation_count` on "Company agreed to settle 40 violations"
returns 40, and on every text containing none of the violation keywords
(case-insensitively) it returns 0, regardless of any numbers in the text. -/
theorem C9_violation_extraction :
    extract_violation_count "Company agreed to settle 40 violations" = 40 ∧
    ∀ text : String,
      (VIOLATION_KEYWORDS.any fun k => containsSub k.data (lowerChars text)) = false →
      extract_violation_count text = 0 := by
  constructor
  · simp [extract_violation_count, lowerChars, VIOLATION_KEYWORDS, containsSub,
      findallNumWsLit, natOfDigits, maxNat, List.isPrefixOf]
  · intro text h
    simp [extract_violation_count, h]

/-- C9 witness: a text with a number but no violation keyword yields count 0. -/
theorem C9_witness : extract_violation_count "Company paid 40 fines in 2020" = 0 :=
  C9_violation_extraction.2 "Company paid 40 fines in 2020" (by decide)

/-- C2 (code evaluated at the failing input): for the debt-ratio metric DTE
and the series years [1, 2], values [3, 1] — slope −2, classified
`improving` because for debt ratios a negative slope is improvement — the
returned trend score is `TREND_SCORES['DTE']['improving'] = 10`, for either
value of the p-value significance oracle. The claim (and the source's own
comments "For ROA, ROE, Altman Z-Score: positive trend = lower risk" /
"For debt ratios: negative trend = lower risk") require score 2 for an
improving classification. -/
theorem C2_code_behavior_at_failing_input (statistical_sig : Bool) :
    (analyze_trend statistical_sig [1, 2] [3, 1] "DTE").trend = "improving" ∧
    (analyze_trend statistical_sig [1, 2] [3, 1] "DTE").score = 10 := by
  have h1 : ("DTE" = "ROA") = False := by simp only [String.reduceEq]
  have h2 : ("DTE" = "ROE") = False := by simp only [String.reduceEq]
  have h3 : ("DTE" = "Altman_Z") = False := by simp only [String.reduceEq]
  have hab : |(2 : ℚ)/3| = 2/3 := abs_of_nonneg (by norm_num)
  cases statistical_sig <;>
    norm_num [analyze_trend, sortPairs, insertPair, pairLE, linregressSlope,
      linregressR2, List.zip, List.zipWith, h1, h2, h3, hab]
